import Mathlib

/-!
Shallow embedding of `hyperv/neutron/security_groups_driver.py` (the Hyper-V
security-groups driver): the rule/membership caches, the per-port rule
selector, the rule generator producing canonical ACL rule values, and the
prepare/update port-filter lifecycle that diffs against per-port bookkeeping
and drives an external enforcement provider.

Conventions of the embedding:
* Python dicts used as rule templates become a structure with `Option` fields
  (`none` models an absent key).  The dict keys `source_ip_prefix` and
  `dest_ip_prefix` are embedded as the fields `source_ip_pfx` / `dest_ip_pfx`.
* The opaque constants taken from `os_win.utils.network.networkutils` are
  embedded as distinguished strings; only their pairwise distinctness matters.
* Raised exceptions become an explicit `Err` value threaded through results;
  `Err.keyError` models `KeyError`, `Err.valueError` the `ValueError` of
  `list.remove`, `Err.typeError` a `TypeError` from subscripting a non-dict,
  and `Err.providerError` an exception raised by the enforcement provider.
* The external provider (`self._utils`) is a parameter `prov` deciding
  whether each `create_security_rules` / `remove_security_rules` call
  succeeds; the calls issued are collected in order in a trace.
-/

/-- `networkutils.NetworkUtils._ACL_DIR_IN` (opaque provider constant). -/
def aclDirIn : String := "ACL_DIR_IN"

/-- `networkutils.NetworkUtils._ACL_DIR_OUT` (opaque provider constant). -/
def aclDirOut : String := "ACL_DIR_OUT"

/-- `networkutils.NetworkUtils._TCP_PROTOCOL` (opaque provider constant). -/
def protoTcp : String := "6"

/-- `networkutils.NetworkUtils._UDP_PROTOCOL` (opaque provider constant). -/
def protoUdp : String := "17"

/-- `networkutils.NetworkUtils._ICMP_PROTOCOL` (opaque provider constant). -/
def protoIcmp : String := "1"

/-- `networkutils.NetworkUtils._ICMPV6_PROTOCOL` (opaque provider constant). -/
def protoIcmpv6 : String := "58"

/-- `networkutils.NetworkUtils._ACL_ACTION_ALLOW` (opaque provider constant). -/
def actionAllow : String := "ACL_ACTION_ALLOW"

/-- `networkutils.NetworkUtils._ACL_ACTION_DENY` (opaque provider constant). -/
def actionDeny : String := "ACL_ACTION_DENY"

/-- `ACL_PROP_MAP['default']`, the wildcard marker `"ANY"`. -/
def ANY : String := "ANY"

/-- `ACL_PROP_MAP['address_default']['IPv4']`. -/
def addrAnyV4 : String := "0.0.0.0/0"

/-- `ACL_PROP_MAP['address_default']['IPv6']`. -/
def addrAnyV6 : String := "::/0"

/-- A Neutron security-group rule dict (a rule template, or a provider rule
from `port['security_group_rules']`).  `none` models an absent key.  The dict
keys `source_ip_prefix` / `dest_ip_prefix` are the fields
`source_ip_pfx` / `dest_ip_pfx`. -/
structure RuleTemplate where
  direction : String
  ethertype : String
  protocol : Option String
  port_range_min : Option Nat
  port_range_max : Option Nat
  remote_group_id : Option String
  source_ip_pfx : Option String
  dest_ip_pfx : Option String
  security_group_id : Option String
deriving DecidableEq, Repr

/-- The port description dict handed to the lifecycle calls. -/
structure Port where
  id : String
  device : String
  fixed_ips : List String
  security_groups : List String
  security_group_rules : List RuleTemplate
deriving DecidableEq, Repr

/-- A `SecurityGroupRuleR2` instance.  `Weight` is the class attribute
(always `65500`); `IdleSessionTimeout` the class attribute `0`. -/
structure SGRule where
  Direction : String
  Action : String
  LocalPort : String
  Protocol : String
  RemoteIPAddress : String
  Stateful : Bool
  IdleSessionTimeout : Nat
  Weight : Nat
deriving DecidableEq, Repr

/-- An element of a `_sec_group_rules` bookkeeping list.  The Python lists are
heterogeneous: `prepare_port_filter`/`update_port_filter` store rule template
dicts there (lines 142 and 220), while `_add_sg_port_rules` appends
`SecurityGroupRuleR2` objects. -/
inductive BookEntry where
  | tmpl (t : RuleTemplate)
  | rule (r : SGRule)
deriving DecidableEq, Repr

/-- The exceptions the embedded code can raise. -/
inductive Err where
  | keyError
  | valueError
  | typeError
  | providerError
deriving DecidableEq, Repr

/-- A call issued to the external enforcement provider (`self._utils`). -/
inductive ProviderCall where
  | create (port_id : String) (rules : List SGRule)
  | remove (port_id : String) (rules : List SGRule)
deriving DecidableEq, Repr

/-- The mutable attributes of `HyperVSecurityGroupsDriverMixin`, as
association lists keyed by strings. -/
structure DriverState where
  sec_group_rules : List (String × List BookEntry)
  security_ports : List (String × Port)
  sg_members : List (String × List (String × List String))
  sg_rule_templates : List (String × List RuleTemplate)
deriving DecidableEq, Repr

/-- Result of a lifecycle step: the state when the call returns (or when the
exception escapes), the provider calls issued in order, and the exception
propagated to the caller (if any). -/
structure LifeRes where
  st : DriverState
  calls : List ProviderCall
  err : Option Err
deriving DecidableEq, Repr

/-- Python dict lookup `d[k]` / `d.get(k)` on an association list. -/
def lookupA {α : Type} (l : List (String × α)) (k : String) : Option α :=
  match l with
  | [] => none
  | (k', v) :: rest => if k' = k then some v else lookupA rest k

/-- Python dict assignment `d[k] = v` on an association list. -/
def setA {α : Type} (l : List (String × α)) (k : String) (v : α) : List (String × α) :=
  match l with
  | [] => [(k, v)]
  | (k', v') :: rest => if k' = k then (k, v) :: rest else (k', v') :: setA rest k v

/-- `SecurityGroupRuleBase.__eq__` between two `SecurityGroupRuleR2` objects:
compares the `_FIELDS` list `[Direction, Action, LocalPort, Protocol,
RemoteIPAddress, Stateful, IdleSessionTimeout]` (and not `Weight`). -/
def eqR2 (a b : SGRule) : Bool :=
  a.Direction == b.Direction && a.Action == b.Action && a.LocalPort == b.LocalPort &&
    a.Protocol == b.Protocol && a.RemoteIPAddress == b.RemoteIPAddress &&
    a.Stateful == b.Stateful && a.IdleSessionTimeout == b.IdleSessionTimeout

/-- The 5-tuple hashed by `SecurityGroupRuleR2.__init__` into `_cached_hash`:
`(direction, action, self.LocalPort, protocol, remote_addr)`. -/
def hashKey (r : SGRule) : String × String × String × String × String :=
  (r.Direction, r.Action, r.LocalPort, r.Protocol, r.RemoteIPAddress)

/-- Python `==` between two elements of a bookkeeping list.  A rule template
dict never equals a `SecurityGroupRuleR2` object: `dict.__eq__` returns
`NotImplemented` on it and the reflected `SecurityGroupRuleBase.__eq__` fails
its `hasattr` checks. -/
def pyEqEntry (a b : BookEntry) : Bool :=
  match a, b with
  | .tmpl x, .tmpl y => decide (x = y)
  | .rule x, .rule y => eqR2 x y
  | _, _ => false

/-- Two `SecurityGroupRuleR2` objects collapse to one element of a Python
`set` exactly when they hash equal and compare equal. -/
def pyDup (a b : SGRule) : Bool :=
  eqR2 a b && decide (hashKey a = hashKey b)

/-- Helper for `pySet`: drop later elements duplicating an earlier one. -/
def dedupKeepFirst (seen : List SGRule) : List SGRule → List SGRule
  | [] => []
  | x :: xs =>
    if seen.any (fun y => pyDup y x) then dedupKeepFirst seen xs
    else x :: dedupKeepFirst (x :: seen) xs

/-- `list(set(l))` on a list of `SecurityGroupRuleR2` objects, keeping the
first occurrence of each duplicate class (CPython leaves the set's iteration
order unspecified; every claim below is insensitive to this order). -/
def pySet (l : List SGRule) : List SGRule :=
  dedupKeepFirst [] l

/-- Python `x in l` for rule template lists (dict equality). -/
def listContainsT (l : List RuleTemplate) (r : RuleTemplate) : Bool :=
  l.any (fun x => decide (x = r))

/-- `list.remove(rule)` scan: remove the first entry equal to `rule`,
or report that none is (Python raises `ValueError`). -/
def removeFirstEntry : List BookEntry → SGRule → Option (List BookEntry)
  | [], _ => none
  | e :: es, r =>
    if pyEqEntry e (.rule r) then some es
    else (removeFirstEntry es r).map (fun l => e :: l)

/-- The loop `for rule in sg_rules: old_sg_rules.remove(rule)` of
`_remove_sg_port_rules`: returns the list as mutated when the loop finishes
or when `ValueError` escapes. -/
def removeEach : List BookEntry → List SGRule → List BookEntry × Option Err
  | old, [] => (old, none)
  | old, r :: rs =>
    match removeFirstEntry old r with
    | some old2 => removeEach old2 rs
    | none => (old, some .valueError)

/-- `SecurityGroupRuleGeneratorR2._get_rule_port_range`. -/
def get_rule_port_range (r : RuleTemplate) : String :=
  match r.port_range_min, r.port_range_max with
  | some a, some b => toString a ++ "-" ++ toString b
  | _, _ => ANY

/-- `SecurityGroupRuleGeneratorR2._get_rule_protocol` composed with
`_get_rule_prop_or_default`: a known protocol name maps to its provider
constant, anything else (including the absent-key default `"ANY"`) passes
through unchanged. -/
def get_rule_protocol (r : RuleTemplate) : String :=
  match r.protocol with
  | none => ANY
  | some p =>
    if p = "tcp" then protoTcp
    else if p = "udp" then protoUdp
    else if p = "icmp" then protoIcmp
    else if p = "ipv6-icmp" then protoIcmpv6
    else p

/-- `ACL_PROP_MAP['address_default'][ethertype]`; raises `KeyError` on an
ethertype other than `IPv4`/`IPv6`. -/
def address_default (ethertype : String) : Except Err String :=
  if ethertype = "IPv4" then .ok addrAnyV4
  else if ethertype = "IPv6" then .ok addrAnyV6
  else .error .keyError

/-- `SecurityGroupRuleGenerator._get_rule_remote_address`. -/
def get_rule_remote_address (r : RuleTemplate) : Except Err String :=
  if r.direction = "ingress" then
    match r.source_ip_pfx with
    | some p => .ok p
    | none => address_default r.ethertype
  else
    match r.dest_ip_pfx with
    | some p => .ok p
    | none => address_default r.ethertype

/-- `ACL_PROP_MAP['direction'][d]`; raises `KeyError` off `ingress`/`egress`. -/
def acl_direction (d : String) : Except Err String :=
  if d = "ingress" then .ok aclDirIn
  else if d = "egress" then .ok aclDirOut
  else .error .keyError

/-- Characters before the first occurrence of `pat` (all of them if absent). -/
def upToPattern (pat : List Char) : List Char → List Char
  | [] => []
  | c :: cs => if pat.isPrefixOf (c :: cs) then [] else c :: upToPattern pat cs

/-- `remote_address.split('/128', 1)[0]`. -/
def strip128 (s : String) : String :=
  ⟨upToPattern "/128".data s.data⟩

/-- `SecurityGroupRuleR2.__init__`.  ICMP-family rules get an empty
`LocalPort` and are never stateful; deny rules are never stateful. -/
def mkSGRuleR2 (direction local_port protocol remote_addr action : String) : SGRule :=
  let is_not_icmp : Bool := !(protocol == protoIcmp || protocol == protoIcmpv6)
  { Direction := direction
    Action := action
    LocalPort := if is_not_icmp then local_port else ""
    Protocol := protocol
    RemoteIPAddress := remote_addr
    Stateful := is_not_icmp && !(action == actionDeny)
    IdleSessionTimeout := 0
    Weight := 65500 }

/-- `SecurityGroupRuleGeneratorR2.create_security_group_rule`. -/
def create_security_group_rule (r : RuleTemplate) : Except Err (List SGRule) :=
  let local_port := get_rule_port_range r
  match acl_direction r.direction with
  | .error e => .error e
  | .ok direction =>
    match get_rule_remote_address r with
    | .error e => .error e
    | .ok ra =>
      let remote_address := strip128 ra
      let protocol := get_rule_protocol r
      let protocols :=
        if protocol = ANY then [protoTcp, protoUdp, protoIcmp, protoIcmpv6]
        else [protocol]
      .ok (protocols.map (fun p => mkSGRuleR2 direction local_port p remote_address actionAllow))

/-- `SecurityGroupRuleGenerator.create_security_group_rules` over rule
template dicts. -/
def create_security_group_rules (rs : List RuleTemplate) : Except Err (List SGRule) :=
  match rs with
  | [] => .ok []
  | r :: rest =>
    match create_security_group_rule r with
    | .error e => .error e
    | .ok a =>
      match create_security_group_rules rest with
      | .error e => .error e
      | .ok b => .ok (a ++ b)

/-- `create_security_group_rules` applied to a bookkeeping list (as
`update_port_filter` does through `_remove_port_rules`): subscripting a
`SecurityGroupRuleR2` object (`rule['direction']`) raises `TypeError`. -/
def create_security_group_rules_entries (es : List BookEntry) : Except Err (List SGRule) :=
  match es with
  | [] => .ok []
  | .rule _ :: _ => .error .typeError
  | .tmpl t :: rest =>
    match create_security_group_rule t with
    | .error e => .error e
    | .ok a =>
      match create_security_group_rules_entries rest with
      | .error e => .error e
      | .ok b => .ok (a ++ b)

/-- `SecurityGroupRuleGeneratorR2.create_default_sg_rules`: all deny rules for
2 directions × 4 protocols × 2 ethertype any-addresses, in loop order. -/
def create_default_sg_rules : List SGRule :=
  [aclDirIn, aclDirOut].flatMap (fun d =>
    [protoTcp, protoUdp, protoIcmp, protoIcmpv6].flatMap (fun p =>
      [addrAnyV4, addrAnyV6].map (fun addr => mkSGRuleR2 d ANY p addr actionDeny)))

/-- `SecurityGroupRuleGeneratorR2.compute_new_rules_add`: the additions are
the new rules not already in the old bookkeeping list (Python `in`, so
`__eq__` against each entry); the removal list is always empty. -/
def compute_new_rules_add (old : List BookEntry) (new : List SGRule) :
    List SGRule × List SGRule :=
  (new.filter (fun r => !(old.any (fun e => pyEqEntry e (.rule r)))), [])

/-- Membership cache type: security-group id to (ethertype to member IPs). -/
abbrev MemCache := List (String × List (String × List String))

/-- Template cache type: security-group id to its rule templates. -/
abbrev TmplCache := List (String × List RuleTemplate)

/-- Modelled external library behavior (spec 4.2): `str(netaddr.IPNetwork(ip).cidr)`
renders a bare member address as a single-host network with a host mask. -/
def ipToCidr (ip : String) : String :=
  if ip.data.contains '.' then ip ++ "/32" else ip ++ "/128"

/-- Python truthiness test `if not remote_group_id` on `rule.get('remote_group_id')`:
an absent key and an empty string are both falsy. -/
def falsyOpt (o : Option String) : Bool :=
  match o with
  | none => true
  | some s => s == ""

/-- Store `str(netaddr.IPNetwork(ip).cidr)` under `DIRECTION_IP_PREFIX[direction]`
in a copy of the rule; `KeyError` off `ingress`/`egress`. -/
def setIpPfx (direction : String) (t : RuleTemplate) (v : String) : Except Err RuleTemplate :=
  if direction = "ingress" then .ok { t with source_ip_pfx := some v }
  else if direction = "egress" then .ok { t with dest_ip_pfx := some v }
  else .error .keyError

/-- The inner member loop of `_select_sg_rules_for_port`: one rule per member
address of the remote group, skipping the port's own fixed IPs. -/
def mkIpRules (direction sg_id : String) (fixed_ips : List String)
    (rule : RuleTemplate) : List String → Except Err (List RuleTemplate)
  | [] => .ok []
  | ip :: rest =>
    if fixed_ips.contains ip then mkIpRules direction sg_id fixed_ips rule rest
    else
      match setIpPfx direction rule (ipToCidr ip) with
      | .error e => .error e
      | .ok t =>
        match mkIpRules direction sg_id fixed_ips rule rest with
        | .error e => .error e
        | .ok tl => .ok ({ t with security_group_id := some sg_id } :: tl)

/-- The template loop of `_select_sg_rules_for_port` for one attached group.
Note `self._sg_members[remote_group_id][ethertype]` subscripts the membership
cache directly: a missing group or ethertype key raises `KeyError`. -/
def select_rules_from_templates (mems : MemCache) (direction sg_id : String)
    (fixed_ips : List String) : List RuleTemplate → Except Err (List RuleTemplate)
  | [] => .ok []
  | rule :: rest =>
    if rule.direction ≠ direction then
      select_rules_from_templates mems direction sg_id fixed_ips rest
    else if falsyOpt rule.remote_group_id then
      match select_rules_from_templates mems direction sg_id fixed_ips rest with
      | .error e => .error e
      | .ok tl => .ok ({ rule with security_group_id := some sg_id } :: tl)
    else
      match lookupA mems ((rule.remote_group_id).getD "") with
      | none => .error .keyError
      | some byEth =>
        match lookupA byEth rule.ethertype with
        | none => .error .keyError
        | some ips =>
          match mkIpRules direction sg_id fixed_ips rule ips with
          | .error e => .error e
          | .ok hd =>
            match select_rules_from_templates mems direction sg_id fixed_ips rest with
            | .error e => .error e
            | .ok tl => .ok (hd ++ tl)

/-- The outer group loop of `_select_sg_rules_for_port`.  A group id with no
cached templates contributes nothing (`self._sg_rule_templates.get(sg_id, [])`). -/
def selectLoop (tmpls : TmplCache) (mems : MemCache) (direction : String)
    (fixed_ips : List String) : List String → Except Err (List RuleTemplate)
  | [] => .ok []
  | sg_id :: rest =>
    match select_rules_from_templates mems direction sg_id fixed_ips
        ((lookupA tmpls sg_id).getD []) with
    | .error e => .error e
    | .ok a =>
      match selectLoop tmpls mems direction fixed_ips rest with
      | .error e => .error e
      | .ok b => .ok (a ++ b)

/-- `HyperVSecurityGroupsDriverMixin._select_sg_rules_for_port`. -/
def select_sg_rules_for_port (tmpls : TmplCache) (mems : MemCache)
    (port : Port) (direction : String) : Except Err (List RuleTemplate) :=
  selectLoop tmpls mems direction port.fixed_ips port.security_groups

/-- `HyperVSecurityGroupsDriverMixin._generate_rules` restricted to the single
port the lifecycle passes: an ingress pass then an egress pass. -/
def generateRules (tmpls : TmplCache) (mems : MemCache) (port : Port) :
    Except Err (List RuleTemplate) :=
  match select_sg_rules_for_port tmpls mems port "ingress" with
  | .error e => .error e
  | .ok a =>
    match select_sg_rules_for_port tmpls mems port "egress" with
    | .error e => .error e
    | .ok b => .ok (a ++ b)

/-- `HyperVSecurityGroupsDriverMixin._add_sg_port_rules`.  An empty batch
returns before touching the provider; otherwise the provider call is issued
and the bookkeeping list is extended only when it succeeds. -/
def addSgPortRules (prov : ProviderCall → Bool) (st : DriverState)
    (pid : String) (rules : List SGRule) : LifeRes :=
  match rules with
  | [] => ⟨st, [], none⟩
  | r :: rs =>
    match lookupA st.sec_group_rules pid with
    | none => ⟨st, [], some .keyError⟩
    | some old =>
      if prov (.create pid (r :: rs)) then
        ⟨{ st with sec_group_rules :=
                     setA st.sec_group_rules pid (old ++ (r :: rs).map BookEntry.rule) },
          [.create pid (r :: rs)], none⟩
      else ⟨st, [.create pid (r :: rs)], some .providerError⟩

/-- `HyperVSecurityGroupsDriverMixin._remove_sg_port_rules`.  An empty batch
returns before touching the provider; otherwise the provider call is issued
and the entries are removed one by one only after it succeeds (a rule absent
from the list raises `ValueError` mid-loop, leaving earlier removals done). -/
def removeSgPortRules (prov : ProviderCall → Bool) (st : DriverState)
    (pid : String) (rules : List SGRule) : LifeRes :=
  match rules with
  | [] => ⟨st, [], none⟩
  | r :: rs =>
    match lookupA st.sec_group_rules pid with
    | none => ⟨st, [], some .keyError⟩
    | some old =>
      if prov (.remove pid (r :: rs)) then
        let res := removeEach old (r :: rs)
        ⟨{ st with sec_group_rules := setA st.sec_group_rules pid res.1 },
          [.remove pid (r :: rs)], res.2⟩
      else ⟨st, [.remove pid (r :: rs)], some .providerError⟩

/-- `HyperVSecurityGroupsDriverMixin._create_port_rules`. -/
def create_port_rules (prov : ProviderCall → Bool) (st : DriverState)
    (pid : String) (rules : List RuleTemplate) : LifeRes :=
  match create_security_group_rules rules with
  | .error e => ⟨st, [], some e⟩
  | .ok sg_rules =>
    match lookupA st.sec_group_rules pid with
    | none => ⟨st, [], some .keyError⟩
    | some old =>
      match addSgPortRules prov st pid (pySet (compute_new_rules_add old sg_rules).1) with
      | ⟨st1, t1, some e⟩ => ⟨st1, t1, some e⟩
      | ⟨st1, t1, none⟩ =>
        match removeSgPortRules prov st1 pid (pySet (compute_new_rules_add old sg_rules).2) with
        | ⟨st2, t2, e2⟩ => ⟨st2, t1 ++ t2, e2⟩

/-- `HyperVSecurityGroupsDriverMixin._remove_port_rules` (its argument is a
slice of the bookkeeping list in `update_port_filter`, hence entries). -/
def remove_port_rules (prov : ProviderCall → Bool) (st : DriverState)
    (pid : String) (entries : List BookEntry) : LifeRes :=
  match create_security_group_rules_entries entries with
  | .error e => ⟨st, [], some e⟩
  | .ok sg_rules => removeSgPortRules prov st pid (pySet sg_rules)

/-- The new-device branch of `prepare_port_filter` (lines 128-136): reset the
port's bookkeeping, add the default-deny baseline, then the provider rules. -/
def prepare_stage1 (prov : ProviderCall → Bool) (st : DriverState) (port : Port) : LifeRes :=
  match lookupA st.security_ports port.device with
  | some _ => ⟨st, [], none⟩
  | none =>
    match addSgPortRules prov
        { st with sec_group_rules := setA st.sec_group_rules port.id [] }
        port.id create_default_sg_rules with
    | ⟨st1, t1, some e⟩ => ⟨st1, t1, some e⟩
    | ⟨st1, t1, none⟩ =>
      match create_port_rules prov st1 port.id port.security_group_rules with
      | ⟨st2, t2, e2⟩ => ⟨st2, t1 ++ t2, e2⟩

/-- `HyperVSecurityGroupsDriverMixin.prepare_port_filter`.  After the
new-device stage it applies the selector output and finally records the port
description and — as rule template dicts — the selector output itself. -/
def prepare_port_filter (prov : ProviderCall → Bool) (st : DriverState) (port : Port) : LifeRes :=
  match prepare_stage1 prov st port with
  | ⟨st1, t1, some e⟩ => ⟨st1, t1, some e⟩
  | ⟨st1, t1, none⟩ =>
    match generateRules st1.sg_rule_templates st1.sg_members port with
    | .error e => ⟨st1, t1, some e⟩
    | .ok newrules =>
      match create_port_rules prov st1 port.id newrules with
      | ⟨st2, t2, some e⟩ => ⟨st2, t1 ++ t2, some e⟩
      | ⟨st2, t2, none⟩ =>
        ⟨{ st2 with
            security_ports := setA st2.security_ports port.device port,
            sec_group_rules := setA st2.sec_group_rules port.id
              (newrules.map BookEntry.tmpl) },
          t1 ++ t2, none⟩

/-- `HyperVSecurityGroupsDriverMixin.update_port_filter`. -/
def update_port_filter (prov : ProviderCall → Bool) (st : DriverState) (port : Port) : LifeRes :=
  match lookupA st.security_ports port.device with
  | none => ⟨st, [], none⟩
  | some old_port =>
    match generateRules st.sg_rule_templates st.sg_members port with
    | .error e => ⟨st, [], some e⟩
    | .ok added =>
      match lookupA st.sec_group_rules port.id with
      | none => ⟨st, [], some .keyError⟩
      | some book =>
        match create_port_rules prov st port.id
            (port.security_group_rules.filter
                (fun r => !(listContainsT old_port.security_group_rules r))
              ++ added.filter (fun r => !(book.any (fun e => pyEqEntry e (.tmpl r))))) with
        | ⟨st1, t1, some e⟩ => ⟨st1, t1, some e⟩
        | ⟨st1, t1, none⟩ =>
          match remove_port_rules prov st1 old_port.id
              (book.filter (fun e => !(added.any (fun r => pyEqEntry e (.tmpl r))))
                ++ (old_port.security_group_rules.filter
                      (fun r => !(listContainsT port.security_group_rules r))).map
                    BookEntry.tmpl) with
          | ⟨st2, t2, some e⟩ => ⟨st2, t1 ++ t2, some e⟩
          | ⟨st2, t2, none⟩ =>
            ⟨{ st2 with
                security_ports := setA st2.security_ports port.device port,
                sec_group_rules := setA st2.sec_group_rules port.id
                  (added.map BookEntry.tmpl) },
              t1 ++ t2, none⟩

/-- `HyperVSecurityGroupsDriverMixin.update_security_group_rules`. -/
def update_security_group_rules (st : DriverState) (sg_id : String)
    (sg_rules : List RuleTemplate) : DriverState :=
  { st with sg_rule_templates := setA st.sg_rule_templates sg_id sg_rules }

/-- `HyperVSecurityGroupsDriverMixin.update_security_group_members`. -/
def update_security_group_members (st : DriverState) (sg_id : String)
    (sg_members : List (String × List String)) : DriverState :=
  { st with sg_members := setA st.sg_members sg_id sg_members }

/-- A provider on which every call succeeds. -/
def provAll : ProviderCall → Bool := fun _ => true

/-- A provider on which every call raises. -/
def provNone : ProviderCall → Bool := fun _ => false

/-- A provider rule: ingress IPv4 tcp port 80. -/
def provTmpl : RuleTemplate := ⟨"ingress", "IPv4", some "tcp", some 80, some 80, none, none, none, none⟩

/-- A port carrying one provider rule and no security groups. -/
def port0 : Port := ⟨"p1", "dev1", [], [], [provTmpl]⟩

/-- The empty driver state (as after `__init__`). -/
def st0 : DriverState := ⟨[], [], [], []⟩

/-- Group A's template: ingress IPv4 tcp 80-80 with remote group A itself. -/
def tmplA : RuleTemplate := ⟨"ingress", "IPv4", some "tcp", some 80, some 80, some "A", none, none, none⟩

/-- Membership cache: A has IPv4 members 10.0.0.1 and 10.0.0.2. -/
def memsA : MemCache := [("A", [("IPv4", ["10.0.0.1", "10.0.0.2"]), ("IPv6", [])])]

/-- Template cache holding only group A's template. -/
def tmplsA : TmplCache := [("A", [tmplA])]

/-- A port in group A owning the fixed IP 10.0.0.1. -/
def port9 : Port := ⟨"p9", "d9", ["10.0.0.1"], ["A"], []⟩

/-- The abstract rule the selector emits for `port9`. -/
def selA : RuleTemplate := { tmplA with source_ip_pfx := some "10.0.0.2/32", security_group_id := some "A" }

/-- The concrete rule the generator emits from `selA`. -/
def rule9 : SGRule := mkSGRuleR2 aclDirIn "80-80" protoTcp "10.0.0.2/32" actionAllow

/-- A state in which `port9` has already been synchronized. -/
def st8 : DriverState := ⟨[("p9", [BookEntry.tmpl selA])], [("d9", port9)], memsA, tmplsA⟩

/-- A state whose bookkeeping has an (empty) entry for port `p1`. -/
def st3 : DriverState := ⟨[("p1", [])], [], [], []⟩

/-- Constructed rules differing only in their `Stateful` attribute. -/
def r5a : SGRule := ⟨aclDirIn, actionAllow, "80-80", protoTcp, "10.0.0.1/32", true, 0, 65500⟩

/-- `r5a` with the `Stateful` attribute flipped. -/
def r5b : SGRule := { r5a with Stateful := false }

/-- A template naming remote group B, which has no cached membership. -/
def tmplB : RuleTemplate := ⟨"ingress", "IPv4", some "tcp", none, none, some "B", none, none, none⟩

/-- A port attached to group A only. -/
def port4 : Port := ⟨"p4", "d4", [], ["A"], []⟩

/-- Template cache for the C4 scenario. -/
def tmpls4 : TmplCache := [("A", [tmplB])]

/-- An empty membership cache. -/
def mems4 : MemCache := []

/-- A template with no protocol key. -/
def tmpl7 : RuleTemplate := ⟨"ingress", "IPv4", none, none, none, none, none, none, none⟩

/-- The four concrete rules generated from `tmpl7`. -/
def rules7 : List SGRule :=
  [mkSGRuleR2 aclDirIn ANY protoTcp addrAnyV4 actionAllow,
   mkSGRuleR2 aclDirIn ANY protoUdp addrAnyV4 actionAllow,
   mkSGRuleR2 aclDirIn ANY protoIcmp addrAnyV4 actionAllow,
   mkSGRuleR2 aclDirIn ANY protoIcmpv6 addrAnyV4 actionAllow]

instance {ε α : Type} [DecidableEq ε] [DecidableEq α] : DecidableEq (Except ε α) := fun a b =>
  match a, b with
  | .ok x, .ok y =>
    if h : x = y then .isTrue (by rw [h]) else .isFalse (fun he => by cases he; exact h rfl)
  | .error e, .error f =>
    if h : e = f then .isTrue (by rw [h]) else .isFalse (fun he => by cases he; exact h rfl)
  | .ok _, .error _ => .isFalse (fun he => by cases he)
  | .error _, .ok _ => .isFalse (fun he => by cases he)

theorem eqR2_refl (r : SGRule) : eqR2 r r = true := by
  simp [eqR2]

theorem lookupA_setA_self {α : Type} (l : List (String × α)) (k : String) (v : α) :
    lookupA (setA l k v) k = some v := by
  induction l with
  | nil => simp [setA, lookupA]
  | cons p rest ih =>
    obtain ⟨k', v'⟩ := p
    by_cases h : k' = k
    · simp [setA, h, lookupA]
    · simp [setA, h, lookupA, ih]

theorem addSg_preserves (prov : ProviderCall → Bool) (st : DriverState)
    (pid : String) (rules : List SGRule) :
    (addSgPortRules prov st pid rules).st.security_ports = st.security_ports ∧
    (addSgPortRules prov st pid rules).st.sg_members = st.sg_members ∧
    (addSgPortRules prov st pid rules).st.sg_rule_templates = st.sg_rule_templates := by
  unfold addSgPortRules
  cases rules with
  | nil => exact ⟨rfl, rfl, rfl⟩
  | cons r rs =>
    cases hl : lookupA st.sec_group_rules pid with
    | none => simp [hl]
    | some old =>
      by_cases hp : prov (ProviderCall.create pid (r :: rs)) <;> simp [hl, hp]

theorem removeSg_preserves (prov : ProviderCall → Bool) (st : DriverState)
    (pid : String) (rules : List SGRule) :
    (removeSgPortRules prov st pid rules).st.security_ports = st.security_ports ∧
    (removeSgPortRules prov st pid rules).st.sg_members = st.sg_members ∧
    (removeSgPortRules prov st pid rules).st.sg_rule_templates = st.sg_rule_templates := by
  unfold removeSgPortRules
  cases rules with
  | nil => exact ⟨rfl, rfl, rfl⟩
  | cons r rs =>
    cases hl : lookupA st.sec_group_rules pid with
    | none => simp [hl]
    | some old =>
      by_cases hp : prov (ProviderCall.remove pid (r :: rs)) <;> simp [hl, hp]

/-- C10: an empty batch passed to `_add_sg_port_rules` or
`_remove_sg_port_rules` returns immediately: no provider call is issued and
the driver state (bookkeeping included) is unchanged. -/
theorem C10_empty_batch_noop (prov : ProviderCall → Bool) (st : DriverState) (pid : String) :
    addSgPortRules prov st pid [] = ⟨st, [], none⟩ ∧
    removeSgPortRules prov st pid [] = ⟨st, [], none⟩ :=
  ⟨rfl, rfl⟩

/-- C6 (amended): `create_default_sg_rules` returns exactly 16 rules, one per
combination of 2 directions × 4 known protocols × 2 ethertype any-addresses,
every rule has action deny and the ethertype's default any-address; the
`local_port` is the wildcard marker only for the tcp/udp rules, while the
icmp/icmpv6 rules carry an empty `local_port` (the constructor blanks the
port field for the ICMP family). -/
theorem C6_default_deny_baseline :
    create_default_sg_rules.length = 16 ∧
    create_default_sg_rules.map (fun r => (r.Direction, r.Protocol, r.RemoteIPAddress)) =
      [aclDirIn, aclDirOut].flatMap (fun d =>
        [protoTcp, protoUdp, protoIcmp, protoIcmpv6].flatMap (fun p =>
          [addrAnyV4, addrAnyV6].map (fun a => (d, p, a)))) ∧
    (∀ r ∈ create_default_sg_rules,
      r.Action = actionDeny ∧ r.Stateful = false ∧
      r.LocalPort = (if r.Protocol = protoIcmp ∨ r.Protocol = protoIcmpv6 then "" else ANY)) := by
  refine ⟨rfl, rfl, ?_⟩
  decide

/-- C6 counterexample: the claim that every baseline rule has `local_port`
equal to the wildcard marker is false — the ICMP-family rules have an empty
`local_port`. -/
theorem C6_counterexample :
    ¬ (∀ r ∈ create_default_sg_rules, r.LocalPort = ANY) := by
  decide

/-- C9: for group A = \x7btemplate ingress/IPv4/tcp/80-80/remote_group A,
members 10.0.0.1 and 10.0.0.2\x7d and a port owning 10.0.0.1, the selector
emits exactly one abstract rule with remote 10.0.0.2/32 (self-exclusion) and
the generator turns it into exactly the single concrete rule
\x7bingress, allow, 80-80, tcp, 10.0.0.2/32, stateful\x7d. -/
theorem C9_self_exclusion_pipeline :
    select_sg_rules_for_port tmplsA memsA port9 "ingress" = .ok [selA] ∧
    selA.source_ip_pfx = some "10.0.0.2/32" ∧
    generateRules tmplsA memsA port9 = .ok [selA] ∧
    create_security_group_rules [selA] = .ok [rule9] ∧
    rule9 = ⟨aclDirIn, actionAllow, "80-80", protoTcp, "10.0.0.2/32", true, 0, 65500⟩ := by
  refine ⟨by decide, rfl, by decide, by decide, rfl⟩

/-- C5 counterexample: `__eq__` compares the seven `_FIELDS`, so two rule
objects agreeing on the five hashed fields but differing in `Stateful` hash
equal yet are not equal — the claim that equality is determined by exactly
the five fields regardless of the stateful value is false. -/
theorem C5_counterexample :
    hashKey r5a = hashKey r5b ∧ eqR2 r5a r5b = false :=
  ⟨rfl, rfl⟩

/-- C5 (amended): hashing is determined by exactly the five fields
(direction, action, local_port, protocol, remote_address); equality compares
the seven `_FIELDS` (those five plus `Stateful` and `IdleSessionTimeout`),
but on rules produced by the constructor `Stateful` is a function of protocol
and action and `IdleSessionTimeout` is constantly 0, so two constructed rules
agreeing on the five hashed fields are equal, and conversely; `Weight`
participates in neither. -/
theorem C5_five_field_identity (d1 lp1 p1 ra1 a1 d2 lp2 p2 ra2 a2 : String) :
    (hashKey (mkSGRuleR2 d1 lp1 p1 ra1 a1) = hashKey (mkSGRuleR2 d2 lp2 p2 ra2 a2) →
      eqR2 (mkSGRuleR2 d1 lp1 p1 ra1 a1) (mkSGRuleR2 d2 lp2 p2 ra2 a2) = true) ∧
    (eqR2 (mkSGRuleR2 d1 lp1 p1 ra1 a1) (mkSGRuleR2 d2 lp2 p2 ra2 a2) = true →
      hashKey (mkSGRuleR2 d1 lp1 p1 ra1 a1) = hashKey (mkSGRuleR2 d2 lp2 p2 ra2 a2)) ∧
    (mkSGRuleR2 d1 lp1 p1 ra1 a1).Weight = (mkSGRuleR2 d2 lp2 p2 ra2 a2).Weight := by
  refine ⟨?_, ?_, rfl⟩
  · intro h
    simp only [hashKey, mkSGRuleR2, Prod.mk.injEq] at h
    obtain ⟨hd, ha, hl, hp, hr⟩ := h
    subst hd; subst ha; subst hp; subst hr
    have hrec : mkSGRuleR2 d1 lp1 p1 ra1 a1 = mkSGRuleR2 d1 lp2 p1 ra1 a1 := by
      simp only [mkSGRuleR2]
      rw [hl]
    rw [hrec]
    exact eqR2_refl _
  · intro h
    simp only [eqR2, mkSGRuleR2, Bool.and_eq_true, beq_iff_eq] at h
    simp only [hashKey, mkSGRuleR2, Prod.mk.injEq]
    tauto

/-- Witness for C5: two constructed ICMP rules with different requested port
ranges still agree on all five hashed fields (both local ports are blanked),
and the theorem yields their equality. -/
theorem C5_witness :
    eqR2 (mkSGRuleR2 aclDirIn ANY protoIcmp addrAnyV4 actionAllow)
      (mkSGRuleR2 aclDirIn "99-99" protoIcmp addrAnyV4 actionAllow) = true :=
  (C5_five_field_identity aclDirIn ANY protoIcmp addrAnyV4 actionAllow
    aclDirIn "99-99" protoIcmp addrAnyV4 actionAllow).1 (by decide)

/-- C3: for a nonempty batch on a bookkept port, the provider call is issued
and: on failure the driver state is returned exactly as it was (no member of
the batch gets bookkeeping credit) with the provider exception surfaced; on
success the add batch is appended to the port's bookkeeping list, and the
remove batch is removed from it entry by entry. -/
theorem C3_bookkeeping_after_provider (prov : ProviderCall → Bool) (st : DriverState)
    (pid : String) (r : SGRule) (rs : List SGRule) (old : List BookEntry)
    (hb : lookupA st.sec_group_rules pid = some old) :
    (prov (ProviderCall.create pid (r :: rs)) = false →
      addSgPortRules prov st pid (r :: rs) =
        ⟨st, [ProviderCall.create pid (r :: rs)], some Err.providerError⟩) ∧
    (prov (ProviderCall.create pid (r :: rs)) = true →
      addSgPortRules prov st pid (r :: rs) =
        ⟨{ st with sec_group_rules :=
                     setA st.sec_group_rules pid (old ++ (r :: rs).map BookEntry.rule) },
          [ProviderCall.create pid (r :: rs)], none⟩) ∧
    (prov (ProviderCall.remove pid (r :: rs)) = false →
      removeSgPortRules prov st pid (r :: rs) =
        ⟨st, [ProviderCall.remove pid (r :: rs)], some Err.providerError⟩) ∧
    (prov (ProviderCall.remove pid (r :: rs)) = true →
      removeSgPortRules prov st pid (r :: rs) =
        ⟨{ st with sec_group_rules :=
                     setA st.sec_group_rules pid (removeEach old (r :: rs)).1 },
          [ProviderCall.remove pid (r :: rs)], (removeEach old (r :: rs)).2⟩) := by
  refine ⟨fun hp => ?_, fun hp => ?_, fun hp => ?_, fun hp => ?_⟩ <;>
    simp [addSgPortRules, removeSgPortRules, hb, hp]

/-- Witness for C3: a failing provider call on port `p1` leaves the state
`st3` untouched and surfaces the provider exception. -/
theorem C3_witness :
    addSgPortRules provNone st3 "p1" [rule9] =
      ⟨st3, [ProviderCall.create "p1" [rule9]], some Err.providerError⟩ :=
  (C3_bookkeeping_after_provider provNone st3 "p1" rule9 [] [] rfl).1 rfl

/-- C7: an abstract rule with no protocol key expands into exactly 4 concrete
rules, one per known protocol (tcp, udp, icmp, icmpv6), so the literal
wildcard marker never reaches the provider as a protocol; the icmp/icmpv6
rules are not stateful and carry an empty local port. -/
theorem C7_wildcard_protocol_expansion (t : RuleTemplate) (rules : List SGRule)
    (hp : t.protocol = none) (hok : create_security_group_rule t = Except.ok rules) :
    rules.map SGRule.Protocol = [protoTcp, protoUdp, protoIcmp, protoIcmpv6] ∧
    (∀ r ∈ rules, r.Protocol ≠ ANY ∧ r.Action = actionAllow) ∧
    (∀ r ∈ rules, r.Protocol = protoIcmp ∨ r.Protocol = protoIcmpv6 →
      r.Stateful = false ∧ r.LocalPort = "") := by
  unfold create_security_group_rule at hok
  cases had : acl_direction t.direction with
  | error e =>
    rw [had] at hok
    exact Except.noConfusion hok
  | ok dir =>
    cases har : get_rule_remote_address t with
    | error e =>
      rw [had, har] at hok
      exact Except.noConfusion hok
    | ok ra =>
      simp only [had, har] at hok
      rw [show get_rule_protocol t = ANY from by simp [get_rule_protocol, hp]] at hok
      simp only [if_pos rfl, if_true, eq_self_iff_true, Except.ok.injEq, List.map_cons,
        List.map_nil] at hok
      subst hok
      refine ⟨rfl, ?_, ?_⟩
      · intro r hr
        simp only [List.mem_cons, List.not_mem_nil, or_false] at hr
        rcases hr with h | h | h | h <;> subst h
        · exact ⟨(by decide : protoTcp ≠ ANY), rfl⟩
        · exact ⟨(by decide : protoUdp ≠ ANY), rfl⟩
        · exact ⟨(by decide : protoIcmp ≠ ANY), rfl⟩
        · exact ⟨(by decide : protoIcmpv6 ≠ ANY), rfl⟩
      · intro r hr hic
        simp only [List.mem_cons, List.not_mem_nil, or_false] at hr
        rcases hr with h | h | h | h <;> subst h
        · exact absurd hic (by decide : ¬(protoTcp = protoIcmp ∨ protoTcp = protoIcmpv6))
        · exact absurd hic (by decide : ¬(protoUdp = protoIcmp ∨ protoUdp = protoIcmpv6))
        · exact ⟨rfl, rfl⟩
        · exact ⟨rfl, rfl⟩

/-- Witness for C7: the template with no protocol key generates the four
concrete rules `rules7` with the stated properties. -/
theorem C7_witness :
    rules7.map SGRule.Protocol = [protoTcp, protoUdp, protoIcmp, protoIcmpv6] ∧
    (∀ r ∈ rules7, r.Protocol ≠ ANY ∧ r.Action = actionAllow) ∧
    (∀ r ∈ rules7, r.Protocol = protoIcmp ∨ r.Protocol = protoIcmpv6 →
      r.Stateful = false ∧ r.LocalPort = "") :=
  C7_wildcard_protocol_expansion tmpl7 rules7 rfl (by decide)

/-- C4 (amended): a group attached to the port with no cached rule templates
contributes no rules and raises nothing, but a matching template whose
`remote_group_id` names a group absent from the membership cache raises
`KeyError` (the membership cache is subscripted directly) instead of
contributing nothing. -/
theorem C4_unsynced_group_selection :
    (∀ (tmpls : TmplCache) (mems : MemCache) (port : Port) (d : String),
      (∀ g ∈ port.security_groups, lookupA tmpls g = none) →
      select_sg_rules_for_port tmpls mems port d = .ok []) ∧
    (∀ (tmpls : TmplCache) (mems : MemCache) (port : Port) (t : RuleTemplate)
        (gid rg d : String),
      port.security_groups = [gid] → lookupA tmpls gid = some [t] →
      t.direction = d → t.remote_group_id = some rg → rg ≠ "" →
      lookupA mems rg = none →
      select_sg_rules_for_port tmpls mems port d = .error Err.keyError) := by
  constructor
  · intro tmpls mems port d h
    unfold select_sg_rules_for_port
    revert h
    generalize port.security_groups = gs
    intro h
    induction gs with
    | nil => rfl
    | cons g rest ih =>
      have hg : lookupA tmpls g = none := h g (by simp)
      have hrest : ∀ x ∈ rest, lookupA tmpls x = none := fun x hx => h x (by simp [hx])
      simp [selectLoop, hg, select_rules_from_templates, ih hrest]
  · intro tmpls mems port t gid rg d h1 h2 h3 h4 h5 h6
    unfold select_sg_rules_for_port
    rw [h1]
    simp [selectLoop, h2, select_rules_from_templates, h3, h4, falsyOpt, h5, h6]

/-- C4 counterexample: with group A's template naming remote group B and no
membership cached for B, selection raises `KeyError` — it does not yield an
empty contribution. -/
theorem C4_counterexample :
    select_sg_rules_for_port tmpls4 mems4 port4 "ingress" = .error Err.keyError := by
  decide

/-- Witness for C4: both amended behaviors at concrete inputs — an uncached
attached group yields an empty selection, and an uncached remote group makes
selection raise `KeyError`. -/
theorem C4_witness :
    select_sg_rules_for_port ([] : TmplCache) ([] : MemCache) port4 "ingress" = .ok [] ∧
    select_sg_rules_for_port tmpls4 mems4 port4 "ingress" = .error Err.keyError :=
  ⟨C4_unsynced_group_selection.1 [] [] port4 "ingress" (by decide),
   C4_unsynced_group_selection.2 tmpls4 mems4 port4 tmplB "A" "B" "ingress"
     rfl rfl rfl rfl (by decide) rfl⟩

theorem createPR_preserves (prov : ProviderCall → Bool) (st : DriverState) (pid : String)
    (rules : List RuleTemplate) :
    (create_port_rules prov st pid rules).st.security_ports = st.security_ports ∧
    (create_port_rules prov st pid rules).st.sg_members = st.sg_members ∧
    (create_port_rules prov st pid rules).st.sg_rule_templates = st.sg_rule_templates := by
  unfold create_port_rules
  cases hc : create_security_group_rules rules with
  | error e => exact ⟨rfl, rfl, rfl⟩
  | ok sg =>
    cases hl : lookupA st.sec_group_rules pid with
    | none => exact ⟨rfl, rfl, rfl⟩
    | some old =>
      dsimp only
      cases ha : addSgPortRules prov st pid (pySet (compute_new_rules_add old sg).1) with
      | mk st1 t1 e1 =>
        have hA := addSg_preserves prov st pid (pySet (compute_new_rules_add old sg).1)
        rw [ha] at hA
        cases e1 with
        | some e => exact hA
        | none =>
          dsimp only
          cases hr : removeSgPortRules prov st1 pid (pySet (compute_new_rules_add old sg).2) with
          | mk st2 t2 e2 =>
            have hR := removeSg_preserves prov st1 pid (pySet (compute_new_rules_add old sg).2)
            rw [hr] at hR
            exact ⟨hR.1.trans hA.1, hR.2.1.trans hA.2.1, hR.2.2.trans hA.2.2⟩

theorem removePR_preserves (prov : ProviderCall → Bool) (st : DriverState) (pid : String)
    (entries : List BookEntry) :
    (remove_port_rules prov st pid entries).st.security_ports = st.security_ports ∧
    (remove_port_rules prov st pid entries).st.sg_members = st.sg_members ∧
    (remove_port_rules prov st pid entries).st.sg_rule_templates = st.sg_rule_templates := by
  unfold remove_port_rules
  cases hc : create_security_group_rules_entries entries with
  | error e => exact ⟨rfl, rfl, rfl⟩
  | ok sg => exact removeSg_preserves prov st pid (pySet sg)

theorem stage1_preserves (prov : ProviderCall → Bool) (st : DriverState) (port : Port) :
    (prepare_stage1 prov st port).st.security_ports = st.security_ports ∧
    (prepare_stage1 prov st port).st.sg_members = st.sg_members ∧
    (prepare_stage1 prov st port).st.sg_rule_templates = st.sg_rule_templates := by
  unfold prepare_stage1
  cases hl : lookupA st.security_ports port.device with
  | some p => exact ⟨rfl, rfl, rfl⟩
  | none =>
    cases ha : addSgPortRules prov
        { st with sec_group_rules := setA st.sec_group_rules port.id [] }
        port.id create_default_sg_rules with
    | mk st1 t1 e1 =>
      have hA := addSg_preserves prov
        { st with sec_group_rules := setA st.sec_group_rules port.id [] }
        port.id create_default_sg_rules
      rw [ha] at hA
      cases e1 with
      | some e => exact hA
      | none =>
        dsimp only
        cases hc : create_port_rules prov st1 port.id port.security_group_rules with
        | mk st2 t2 e2 =>
          have hC := createPR_preserves prov st1 port.id port.security_group_rules
          rw [hc] at hC
          exact ⟨hC.1.trans hA.1, hC.2.1.trans hA.2.1, hC.2.2.trans hA.2.2⟩

theorem addSg_calls_nonempty (prov : ProviderCall → Bool) (st : DriverState)
    (pid : String) (r : SGRule) (rs : List SGRule) (old : List BookEntry)
    (hl : lookupA st.sec_group_rules pid = some old) :
    (addSgPortRules prov st pid (r :: rs)).calls = [ProviderCall.create pid (r :: rs)] := by
  unfold addSgPortRules
  by_cases hp : prov (ProviderCall.create pid (r :: rs)) <;> simp [hl, hp]

theorem stage1_calls (prov : ProviderCall → Bool) (st : DriverState) (port : Port)
    (hnew : lookupA st.security_ports port.device = none) :
    ∃ t, (prepare_stage1 prov st port).calls =
      ProviderCall.create port.id create_default_sg_rules :: t := by
  obtain ⟨c, cs, hd⟩ : ∃ c cs, create_default_sg_rules = c :: cs := ⟨_, _, rfl⟩
  unfold prepare_stage1
  simp only [hnew]
  cases ha : addSgPortRules prov
      { st with sec_group_rules := setA st.sec_group_rules port.id [] }
      port.id create_default_sg_rules with
  | mk st1 t1 e1 =>
    have hcalls : t1 = [ProviderCall.create port.id create_default_sg_rules] := by
      have hmain := addSg_calls_nonempty prov
        { st with sec_group_rules := setA st.sec_group_rules port.id [] }
        port.id c cs []
        (lookupA_setA_self st.sec_group_rules port.id [])
      rw [← hd] at hmain
      rw [ha] at hmain
      exact hmain
    cases e1 with
    | some e => exact ⟨[], by simp [hcalls]⟩
    | none =>
      dsimp only
      cases hc : create_port_rules prov st1 port.id port.security_group_rules with
      | mk st2 t2 e2 => exact ⟨t2, by simp [hcalls]⟩

/-- C2: on a brand-new device, `prepare_port_filter` issues the provider
`CreateRules` call carrying the full 16-rule default-deny baseline as its
very first provider call — so it happens strictly before any call that
creates an allow rule for that port — regardless of provider outcomes. -/
theorem C2_baseline_first (prov : ProviderCall → Bool) (st : DriverState) (port : Port)
    (hnew : lookupA st.security_ports port.device = none) :
    (prepare_port_filter prov st port).calls.head? =
      some (ProviderCall.create port.id create_default_sg_rules) ∧
    create_default_sg_rules.length = 16 ∧
    (∀ r ∈ create_default_sg_rules, r.Action = actionDeny) := by
  refine ⟨?_, rfl, by decide⟩
  obtain ⟨t, ht⟩ := stage1_calls prov st port hnew
  unfold prepare_port_filter
  cases hs : prepare_stage1 prov st port with
  | mk st1 t1 e1 =>
    rw [hs] at ht
    dsimp only at ht
    cases e1 with
    | some e => simp [ht]
    | none =>
      cases hg : generateRules st1.sg_rule_templates st1.sg_members port with
      | error e => simp [hg, ht]
      | ok newrules =>
        cases hc : create_port_rules prov st1 port.id newrules with
        | mk st2 t2 e2 =>
          cases e2 with
          | some e => simp [hg, hc, ht]
          | none => simp [hg, hc, ht]

/-- Witness for C2: preparing `port0` in the empty state issues the baseline
call first. -/
theorem C2_witness :
    (prepare_port_filter provAll st0 port0).calls.head? =
      some (ProviderCall.create port0.id create_default_sg_rules) ∧
    create_default_sg_rules.length = 16 ∧
    (∀ r ∈ create_default_sg_rules, r.Action = actionDeny) :=
  C2_baseline_first provAll st0 port0 rfl

theorem filter_not_contains_self (P : List RuleTemplate) :
    P.filter (fun r => !(listContainsT P r)) = [] := by
  rw [List.filter_eq_nil_iff]
  intro a ha
  simp only [listContainsT, Bool.not_eq_true', Bool.not_eq_false, List.any_eq_true]
  exact ⟨a, ha, by simp⟩

theorem filter_not_book_self (S : List RuleTemplate) :
    S.filter (fun r => !((S.map BookEntry.tmpl).any (fun e => pyEqEntry e (.tmpl r)))) = [] := by
  rw [List.filter_eq_nil_iff]
  intro a ha
  simp only [Bool.not_eq_true', Bool.not_eq_false, List.any_eq_true]
  exact ⟨.tmpl a, List.mem_map_of_mem BookEntry.tmpl ha, by simp [pyEqEntry]⟩

theorem filter_book_not_self (S : List RuleTemplate) :
    (S.map BookEntry.tmpl).filter (fun e => !(S.any (fun r => pyEqEntry e (.tmpl r)))) = [] := by
  rw [List.filter_eq_nil_iff]
  intro e he
  obtain ⟨s, hs, rfl⟩ := List.mem_map.1 he
  simp only [Bool.not_eq_true', Bool.not_eq_false, List.any_eq_true]
  exact ⟨s, hs, by simp [pyEqEntry]⟩

theorem create_port_rules_nil (prov : ProviderCall → Bool) (st : DriverState)
    (pid : String) (book : List BookEntry)
    (hb : lookupA st.sec_group_rules pid = some book) :
    create_port_rules prov st pid [] = ⟨st, [], none⟩ := by
  simp [create_port_rules, create_security_group_rules, hb, compute_new_rules_add,
    pySet, dedupKeepFirst, addSgPortRules, removeSgPortRules]

theorem remove_port_rules_nil (prov : ProviderCall → Bool) (st : DriverState) (pid : String) :
    remove_port_rules prov st pid [] = ⟨st, [], none⟩ := by
  simp [remove_port_rules, create_security_group_rules_entries, pySet, dedupKeepFirst,
    removeSgPortRules]

theorem prepare_success (prov : ProviderCall → Bool) (st : DriverState) (port : Port)
    (res : LifeRes) (h : prepare_port_filter prov st port = res) (he : res.err = none) :
    ∃ S, generateRules st.sg_rule_templates st.sg_members port = Except.ok S ∧
      lookupA res.st.sec_group_rules port.id = some (S.map BookEntry.tmpl) := by
  unfold prepare_port_filter at h
  cases hs : prepare_stage1 prov st port with
  | mk st1 t1 e1 =>
    rw [hs] at h
    have hP := stage1_preserves prov st port
    rw [hs] at hP
    cases e1 with
    | some e =>
      dsimp only at h
      rw [← h] at he
      exact absurd he (by simp)
    | none =>
      dsimp only at h
      cases hg : generateRules st1.sg_rule_templates st1.sg_members port with
      | error e =>
        rw [hg] at h
        dsimp only at h
        rw [← h] at he
        exact absurd he (by simp)
      | ok S =>
        rw [hg] at h
        dsimp only at h
        cases hc : create_port_rules prov st1 port.id S with
        | mk st2 t2 e2 =>
          rw [hc] at h
          cases e2 with
          | some e =>
            dsimp only at h
            rw [← h] at he
            exact absurd he (by simp)
          | none =>
            dsimp only at h
            subst h
            refine ⟨S, ?_, ?_⟩
            · rw [hP.2.1, hP.2.2] at hg
              exact hg
            · exact lookupA_setA_self _ _ _

theorem update_success (prov : ProviderCall → Bool) (st : DriverState) (port : Port)
    (res : LifeRes) (op : Port)
    (hd : lookupA st.security_ports port.device = some op)
    (h : update_port_filter prov st port = res) (he : res.err = none) :
    ∃ S, generateRules st.sg_rule_templates st.sg_members port = Except.ok S ∧
      res.st.sg_rule_templates = st.sg_rule_templates ∧
      res.st.sg_members = st.sg_members ∧
      lookupA res.st.security_ports port.device = some port ∧
      lookupA res.st.sec_group_rules port.id = some (S.map BookEntry.tmpl) := by
  unfold update_port_filter at h
  rw [hd] at h
  dsimp only at h
  cases hg : generateRules st.sg_rule_templates st.sg_members port with
  | error e =>
    rw [hg] at h
    dsimp only at h
    rw [← h] at he
    exact absurd he (by simp)
  | ok S =>
    rw [hg] at h
    dsimp only at h
    cases hb : lookupA st.sec_group_rules port.id with
    | none =>
      rw [hb] at h
      dsimp only at h
      rw [← h] at he
      exact absurd he (by simp)
    | some book =>
      rw [hb] at h
      dsimp only at h
      cases hc : create_port_rules prov st port.id
          (port.security_group_rules.filter
              (fun r => !(listContainsT op.security_group_rules r))
            ++ S.filter (fun r => !(book.any (fun e => pyEqEntry e (.tmpl r))))) with
      | mk st1 t1 e1 =>
        rw [hc] at h
        have hC := createPR_preserves prov st port.id
          (port.security_group_rules.filter
              (fun r => !(listContainsT op.security_group_rules r))
            ++ S.filter (fun r => !(book.any (fun e => pyEqEntry e (.tmpl r)))))
        rw [hc] at hC
        cases e1 with
        | some e =>
          dsimp only at h
          rw [← h] at he
          exact absurd he (by simp)
        | none =>
          dsimp only at h
          cases hr : remove_port_rules prov st1 op.id
              (book.filter (fun e => !(S.any (fun r => pyEqEntry e (.tmpl r))))
                ++ (op.security_group_rules.filter
                      (fun r => !(listContainsT port.security_group_rules r))).map
                    BookEntry.tmpl) with
          | mk st2 t2 e2 =>
            rw [hr] at h
            have hR := removePR_preserves prov st1 op.id
              (book.filter (fun e => !(S.any (fun r => pyEqEntry e (.tmpl r))))
                ++ (op.security_group_rules.filter
                      (fun r => !(listContainsT port.security_group_rules r))).map
                    BookEntry.tmpl)
            rw [hr] at hR
            cases e2 with
            | some e =>
              dsimp only at h
              rw [← h] at he
              exact absurd he (by simp)
            | none =>
              dsimp only at h
              subst h
              refine ⟨S, rfl, ?_, ?_, ?_, ?_⟩
              · exact hR.2.2.trans hC.2.2
              · exact hR.2.1.trans hC.2.1
              · exact lookupA_setA_self _ _ _
              · exact lookupA_setA_self _ _ _

/-- C1 counterexample: preparing a port that carries one provider rule and no
groups succeeds, yet the recorded entry of `_sec_group_rules` for the port is
the empty list, while the generator output over the port's provider rules is
nonempty — the recorded set does not include the provider-rule ConcreteRules
(and what is recorded are selector templates, not ConcreteRules). -/
theorem C1_counterexample :
    (prepare_port_filter provAll st0 port0).err = none ∧
    lookupA (prepare_port_filter provAll st0 port0).st.sec_group_rules "p1" = some [] ∧
    create_security_group_rules port0.security_group_rules =
      Except.ok [mkSGRuleR2 aclDirIn "80-80" protoTcp addrAnyV4 actionAllow] := by
  refine ⟨by decide, by decide, by decide⟩

/-- C1 (amended): after a successful `prepare_port_filter`, or a successful
`update_port_filter` on a device already tracked, the port's recorded entry
of `_sec_group_rules` equals exactly the Selector's output for the current
caches and port — stored as abstract rule template dicts, not generated
ConcreteRules, and without any contribution from the port's provider rules. -/
theorem C1_recorded_rule_state (prov : ProviderCall → Bool) (st : DriverState)
    (port : Port) (res : LifeRes) :
    (prepare_port_filter prov st port = res → res.err = none →
      ∃ S, generateRules st.sg_rule_templates st.sg_members port = Except.ok S ∧
        lookupA res.st.sec_group_rules port.id = some (S.map BookEntry.tmpl)) ∧
    (update_port_filter prov st port = res → res.err = none →
      ∀ op, lookupA st.security_ports port.device = some op →
        ∃ S, generateRules st.sg_rule_templates st.sg_members port = Except.ok S ∧
          lookupA res.st.sec_group_rules port.id = some (S.map BookEntry.tmpl)) := by
  constructor
  · intro h he
    exact prepare_success prov st port res h he
  · intro h he op hd
    obtain ⟨S, hg, _, _, _, hb⟩ := update_success prov st port res op hd h he
    exact ⟨S, hg, hb⟩

/-- Witness for C1: the successful prepare of `port0` from the empty state
records exactly the (empty) selector output for the port. -/
theorem C1_witness :
    ∃ S, generateRules st0.sg_rule_templates st0.sg_members port0 = Except.ok S ∧
      lookupA (prepare_port_filter provAll st0 port0).st.sec_group_rules port0.id =
        some (S.map BookEntry.tmpl) :=
  (C1_recorded_rule_state provAll st0 port0 (prepare_port_filter provAll st0 port0)).1
    rfl (by decide)

/-- C8: if `update_port_filter` succeeds, calling it again with the same port
description and unchanged caches issues no provider call at all (the add
batch and the remove batch are both empty) and succeeds. -/
theorem C8_second_update_empty (prov : ProviderCall → Bool) (st : DriverState)
    (port : Port) (res1 : LifeRes)
    (h1 : update_port_filter prov st port = res1) (he1 : res1.err = none) :
    (update_port_filter prov res1.st port).calls = [] ∧
    (update_port_filter prov res1.st port).err = none := by
  cases hd : lookupA st.security_ports port.device with
  | none =>
    unfold update_port_filter at h1
    rw [hd] at h1
    dsimp only at h1
    subst h1
    simp [update_port_filter, hd]
  | some op =>
    obtain ⟨S, hg, hT, hM, hP, hB⟩ := update_success prov st port res1 op hd h1 he1
    have h2 : update_port_filter prov res1.st port =
        ⟨{ res1.st with
            security_ports := setA res1.st.security_ports port.device port,
            sec_group_rules := setA res1.st.sec_group_rules port.id
              (S.map BookEntry.tmpl) }, [], none⟩ := by
      unfold update_port_filter
      rw [hP]
      dsimp only
      rw [hT, hM, hg]
      dsimp only
      rw [hB]
      dsimp only
      rw [filter_not_contains_self port.security_group_rules, filter_not_book_self S,
        filter_book_not_self S]
      simp only [List.append_nil, List.nil_append, List.map_nil]
      rw [create_port_rules_nil prov res1.st port.id (S.map BookEntry.tmpl) hB]
      dsimp only
      rw [remove_port_rules_nil]
      dsimp only
      simp [hT, hM]
    rw [h2]
    exact ⟨rfl, rfl⟩

/-- Witness for C8: updating the already-synchronized `port9` twice — the
second call issues no provider call and succeeds. -/
theorem C8_witness :
    (update_port_filter provAll (update_port_filter provAll st8 port9).st port9).calls = [] ∧
    (update_port_filter provAll (update_port_filter provAll st8 port9).st port9).err = none :=
  C8_second_update_empty provAll st8 port9 (update_port_filter provAll st8 port9)
    rfl (by decide)
